import Mathlib

/-!
Shallow embedding of `sources/unstructured_data/__init__.py`: the
`unstructured_to_structured_resource` configurator and the `convert_data`
transformer that turns unstructured file references into structured records.

Python dictionaries are modelled as association lists with unique keys
(insertion-ordered, as Python dicts are); `dict.get`, `dict.pop` and
subscript-assignment are modelled as first-occurrence lookup, key removal
and in-place update/append. The external extraction engine
(`process_file_to_structured` / `aprocess_file_to_structured` from the
`helpers` module) is treated as an opaque function parameter, sync and
async variant each, that either returns a field mapping or raises a
Python exception; `asyncio.run` drives the async variant to completion,
so both variants are plain functions here.
-/

namespace UnstructuredData

/-- Values stored in an input item: a Python string, or Python `None`.
The `file_path` guard in `convert_data` tests `.get("file_path") is None`,
so `None` must be distinguishable from every string. -/
inductive Val where
  | str (s : String)
  | null
deriving DecidableEq, Repr

/-- A Python dict with string keys and `Val` values (an input item, or the
field mapping returned by the extraction engine). Keys are unique, as in a
Python dict. -/
abbrev Item := List (String × Val)

/-- Python `d.get(k)` / `d[k]`: value at the first (hence, keys being
unique, the only) occurrence of key `k`. -/
def getKey : Item → String → Option Val
  | [], _ => none
  | (k', v) :: t, k => if k' = k then some v else getKey t k

/-- Python `d.pop(k)` restricted to its effect on the dict: the bindings of
key `k` removed. Keys are unique, so filtering every occurrence of `k`
coincides with removing the single binding that `pop` removes. -/
def removeKey : Item → String → Item
  | [], _ => []
  | (k', v) :: t, k => if k' = k then removeKey t k else (k', v) :: removeKey t k

/-- A value of the emitted structured record: an extracted value, or the
embedded metadata dict (the `response["metadata"]` assignment stores a whole
dict as a value). -/
inductive RVal where
  | v (x : Val)
  | obj (m : Item)
deriving DecidableEq, Repr

/-- The structured record emitted by `convert_data`: a Python dict from
field names to record values. -/
abbrev Record := List (String × RVal)

/-- Python `r[k]` lookup on a structured record. -/
def rget : Record → String → Option RVal
  | [], _ => none
  | (k', v) :: t, k => if k' = k then some v else rget t k

/-- Python `r[k] = x` on a structured record: replace the value at the
existing binding of `k` keeping its position, or append a new binding at
the end. -/
def dictSet : Record → String → RVal → Record
  | [], k, x => [(k, x)]
  | (k', v) :: t, k, x => if k' = k then (k, x) :: t else (k', v) :: dictSet t k x

/-- The Python exceptions relevant to `convert_data`: `ValueError` (the
unsupported-format failure it catches), `KeyError` (raised by the
`vectorstore_mapping[vectorstore]` subscript on an unknown name), and any
other exception class. Only `ValueError` is caught. -/
inductive PyErr where
  | valueError (msg : String)
  | keyError (key : String)
  | other (name : String)
deriving DecidableEq, Repr

/-- A log call made through `dlt.common.logger`. -/
inductive LogMsg where
  | info (s : String)
  | warning (s : String)
deriving DecidableEq, Repr

/-- A named query map: output field name to query string (a Python
`Dict[str, str]`). -/
abbrev QueryMap := List (String × String)

/-- Modelled from the spec: the concrete vector-store backend handles that
`vectorstore_mapping` (from the `helpers` module, which is not under
`src/`) resolves names to. The spec gives the closed name set
`chroma`, `weaviate`, `elastic_search`. -/
inductive Backend where
  | chroma
  | weaviate
  | elastic_search
deriving DecidableEq, Repr

/-- Modelled from the spec: `vectorstore_mapping` from the `helpers`
module, which is not under `src/`. The spec describes it as a fixed
name-to-handle mapping with keys `chroma`, `weaviate` and
`elastic_search`; a Python dict subscript on any other name raises
`KeyError`, modelled by the `none` result here. -/
def vectorstore_mapping (name : String) : Option Backend :=
  if name = "chroma" then some Backend.chroma
  else if name = "weaviate" then some Backend.weaviate
  else if name = "elastic_search" then some Backend.elastic_search
  else none

/-- The extraction engine interface consumed by `convert_data`
(`process_file_to_structured` and `aprocess_file_to_structured` are
imported from the `helpers` module, not under `src/`; the spec treats them
as the opaque function `extract(file_path, queries, backend)` returning a
field mapping or raising). -/
abbrev Extractor := String → QueryMap → Backend → Except PyErr Item

/-- The `logger.info` line emitted by `convert_data` before the async
extraction path, absent on the sync path. -/
def asyncLogs (run_async : Bool) : List LogMsg :=
  if run_async then [LogMsg.info "Run conversion asynchronously."] else []

/-- Outcome of one `convert_data` generator run: either normal completion
with the list of yielded records, the logs emitted, and the final state of
the (mutable) input item, or an uncaught exception propagating to the
caller, again with the logs emitted so far and the final item state. -/
inductive ConvResult where
  | ok (records : List Record) (logs : List LogMsg) (item : Item)
  | raised (e : PyErr) (logs : List LogMsg) (item : Item)
deriving DecidableEq, Repr

/-- The records yielded by a `convert_data` run (none when an exception
propagated: the exception occurs before the single `yield`). -/
def ConvResult.records : ConvResult → List Record
  | ConvResult.ok rs _ _ => rs
  | ConvResult.raised _ _ _ => []

/-- The logs emitted by a `convert_data` run. -/
def ConvResult.logs : ConvResult → List LogMsg
  | ConvResult.ok _ ls _ => ls
  | ConvResult.raised _ ls _ => ls

/-- The state of the input item after a `convert_data` run (the Python
code mutates the item via `pop`). -/
def ConvResult.finalItem : ConvResult → Item
  | ConvResult.ok _ _ it => it
  | ConvResult.raised _ _ it => it

/-- `convert_data(unstructured_item, queries, vectorstore, run_async)` from
`sources/unstructured_data/__init__.py`, lines 59-102:

* if `unstructured_item.get("file_path") is None`, return (yield nothing);
* otherwise, inside `try`: on the async path first `logger.info(...)`,
  then resolve `vectorstore_mapping[vectorstore]` (a `KeyError` on an
  unknown name is evaluated before the extraction function is entered and
  is not a `ValueError`, so it propagates), call the chosen extraction
  path, then `response["file_path"] = unstructured_item.pop("file_path")`,
  `response["metadata"] = unstructured_item`, `yield response`;
* `except ValueError as error`: `logger.warning(f"File
  {unstructured_item['file_path']} has unsupported format: {error}")` and
  yield nothing; any other exception propagates unmodified. -/
def convert_data (psync pasync : Extractor) (unstructured_item : Item)
    (queries : QueryMap) (vectorstore : String := "chroma")
    (run_async : Bool := false) : ConvResult :=
  match getKey unstructured_item "file_path" with
  | none => ConvResult.ok [] [] unstructured_item
  | some Val.null => ConvResult.ok [] [] unstructured_item
  | some (Val.str p) =>
    match vectorstore_mapping vectorstore with
    | none =>
      ConvResult.raised (PyErr.keyError vectorstore) (asyncLogs run_async) unstructured_item
    | some backend =>
      match (if run_async then pasync else psync) p queries backend with
      | Except.error (PyErr.valueError msg) =>
        ConvResult.ok []
          (asyncLogs run_async ++
            [LogMsg.warning ("File " ++ p ++ " has unsupported format: " ++ msg)])
          unstructured_item
      | Except.error e =>
        ConvResult.raised e (asyncLogs run_async) unstructured_item
      | Except.ok fields =>
        let remaining := removeKey unstructured_item "file_path"
        let response :=
          dictSet
            (dictSet (fields.map (fun q => (q.1, RVal.v q.2))) "file_path"
              (RVal.v (Val.str p)))
            "metadata" (RVal.obj remaining)
        ConvResult.ok [response] (asyncLogs run_async) remaining

/-- The process environment, as touched by
`os.environ["OPENAI_API_KEY"] = openai_api_key`. -/
abbrev Env := String → Option String

/-- `os.environ[k] = v`. -/
def envSet (e : Env) (k v : String) : Env :=
  fun k' => if k' = k then some v else e k'

/-- The declarations `unstructured_to_structured_resource` passes to
`dlt.transformer`: `name=table_name`, `write_disposition="merge"`,
`merge_key="metadata__data_hash"`, `primary_key="metadata__data_hash"`. -/
structure ResourceConfig where
  name : String
  write_disposition : String
  merge_key : String
  primary_key : String
deriving DecidableEq, Repr

/-- dlt flattens a nested column path such as `metadata.data_hash` into a
single column name joined by double underscores (`metadata__data_hash`). -/
def dltColumnPath (path : List String) : String :=
  String.intercalate "__" path

/-- Modelled from the spec: `INVOICE_QUERIES` from the `settings` module,
which is not under `src/`. The spec says only that it is the built-in
default QueryMap, a non-empty mapping of invoice-domain field names to
query strings. -/
def INVOICE_QUERIES : QueryMap :=
  [("recipient_company_name", "Who is the recipient of the invoice?"),
   ("invoice_amount", "What is the total amount of the invoice?"),
   ("invoice_date", "What is the date of the invoice?"),
   ("invoice_number", "What is the invoice number?"),
   ("service_description", "What is the description of the service billed?")]

/-- The stage built by `unstructured_to_structured_resource`: the resulting
process environment, the declarations handed to `dlt.transformer`, and the
parameters bound onto `convert_data` for the lifetime of the stage. -/
structure ConfiguredStage where
  env : Env
  config : ResourceConfig
  queries : QueryMap
  vectorstore : String
  run_async : Bool

/-- `unstructured_to_structured_resource(queries, openai_api_key,
vectorstore, table_name, run_async)` from
`sources/unstructured_data/__init__.py`, lines 19-55:

* `if openai_api_key:` (Python string truthiness: non-empty) set
  `os.environ["OPENAI_API_KEY"]`;
* `if queries is None: queries = dict(INVOICE_QUERIES)`;
* wrap `convert_data` in `dlt.transformer(name=table_name,
  write_disposition="merge", merge_key="metadata__data_hash",
  primary_key="metadata__data_hash")`, binding `(queries, vectorstore,
  run_async)` as its fixed arguments. -/
def unstructured_to_structured_resource (env : Env) (queries : Option QueryMap)
    (openai_api_key : String) (vectorstore : String := "chroma")
    (table_name : String := "unstructured_to_structured_resource")
    (run_async : Bool := false) : ConfiguredStage :=
  let env' := if openai_api_key ≠ "" then envSet env "OPENAI_API_KEY" openai_api_key else env
  let queries' :=
    match queries with
    | none => INVOICE_QUERIES
    | some q => q
  { env := env'
    config :=
      { name := table_name
        write_disposition := "merge"
        merge_key := "metadata__data_hash"
        primary_key := "metadata__data_hash" }
    queries := queries'
    vectorstore := vectorstore
    run_async := run_async }

/-- A concrete input item with a file path and one metadata field, used to
exercise `convert_data` at concrete inputs. -/
def itemA : Item := [("file_path", Val.str "/a.pdf"), ("data_hash", Val.str "h1")]

/-- A concrete input item without a `file_path` binding. -/
def itemNoPath : Item := [("data_hash", Val.str "h1")]

/-- A concrete query map, used at concrete inputs. -/
def queriesA : QueryMap := [("invoice_amount", "What is the total amount of the invoice?")]

/-- A concrete field mapping returned by a successful extraction, used at
concrete inputs. -/
def fieldsA : Item := [("invoice_amount", Val.str "100")]

/-- A concrete extraction engine that succeeds with a fixed field mapping,
used to exercise `convert_data` at concrete inputs. -/
def exOk : Extractor :=
  fun _ _ _ => Except.ok fieldsA

/-- A concrete extraction engine that raises `ValueError`, used to exercise
the unsupported-format path at concrete inputs. -/
def exValErr : Extractor :=
  fun _ _ _ => Except.error (PyErr.valueError "bad format")

/-- A concrete extraction engine that raises a non-`ValueError` exception,
used to exercise the fatal-propagation path at concrete inputs. -/
def exFatal : Extractor :=
  fun _ _ _ => Except.error (PyErr.other "RuntimeError")

/-- An empty process environment, used at concrete inputs. -/
def envEmpty : Env := fun _ => none

/-! Lemmas about the dict operations. -/

theorem rget_dictSet_self (d : Record) (k : String) (x : RVal) :
    rget (dictSet d k x) k = some x := by
  induction d with
  | nil => simp [dictSet, rget]
  | cons a t ih =>
    by_cases h : a.1 = k
    · simp [dictSet, rget, h]
    · simp [dictSet, rget, h, ih]

theorem rget_dictSet_ne (d : Record) (k k' : String) (x : RVal) (h : k' ≠ k) :
    rget (dictSet d k x) k' = rget d k' := by
  induction d with
  | nil => simp [dictSet, rget, Ne.symm h]
  | cons a t ih =>
    by_cases hk : a.1 = k
    · subst hk
      simp [dictSet, rget, h, Ne.symm h]
    · simp [dictSet, rget, hk, ih]

theorem getKey_removeKey_self (d : Item) (k : String) :
    getKey (removeKey d k) k = none := by
  induction d with
  | nil => simp [removeKey, getKey]
  | cons a t ih =>
    by_cases h : a.1 = k
    · simp [removeKey, h, ih]
    · simp [removeKey, getKey, h, ih]

theorem getKey_removeKey_ne (d : Item) (k k' : String) (h : k' ≠ k) :
    getKey (removeKey d k) k' = getKey d k' := by
  induction d with
  | nil => simp [removeKey]
  | cons a t ih =>
    by_cases hk : a.1 = k
    · subst hk
      simp [removeKey, getKey, Ne.symm h, ih]
    · simp [removeKey, getKey, hk, ih]

theorem rget_map_v (F : Item) (k : String) :
    rget (F.map (fun q => (q.1, RVal.v q.2))) k = (getKey F k).map RVal.v := by
  induction F with
  | nil => simp [rget, getKey]
  | cons a t ih =>
    by_cases h : a.1 = k
    · simp [rget, getKey, h]
    · simp [rget, getKey, h, ih]

/-! Path lemmas for `convert_data`. -/

theorem convert_data_skip (psync pasync : Extractor) (item : Item) (queries : QueryMap)
    (vs : String) (ra : Bool)
    (h : getKey item "file_path" = none ∨ getKey item "file_path" = some Val.null) :
    convert_data psync pasync item queries vs ra = ConvResult.ok [] [] item := by
  rcases h with h | h <;> simp [convert_data, h]

theorem convert_data_unknown_backend (psync pasync : Extractor) (item : Item)
    (queries : QueryMap) (vs : String) (ra : Bool) (p : String)
    (hfp : getKey item "file_path" = some (Val.str p))
    (hvs : vectorstore_mapping vs = none) :
    convert_data psync pasync item queries vs ra =
      ConvResult.raised (PyErr.keyError vs) (asyncLogs ra) item := by
  simp [convert_data, hfp, hvs]

theorem convert_data_success (psync pasync : Extractor) (item : Item) (queries : QueryMap)
    (vs : String) (ra : Bool) (p : String) (b : Backend) (F : Item)
    (hfp : getKey item "file_path" = some (Val.str p))
    (hb : vectorstore_mapping vs = some b)
    (hx : (if ra then pasync else psync) p queries b = Except.ok F) :
    convert_data psync pasync item queries vs ra =
      ConvResult.ok
        [dictSet
          (dictSet (F.map (fun q => (q.1, RVal.v q.2))) "file_path" (RVal.v (Val.str p)))
          "metadata" (RVal.obj (removeKey item "file_path"))]
        (asyncLogs ra) (removeKey item "file_path") := by
  simp [convert_data, hfp, hb, hx]

theorem convert_data_valueError (psync pasync : Extractor) (item : Item) (queries : QueryMap)
    (vs : String) (ra : Bool) (p : String) (b : Backend) (msg : String)
    (hfp : getKey item "file_path" = some (Val.str p))
    (hb : vectorstore_mapping vs = some b)
    (hx : (if ra then pasync else psync) p queries b = Except.error (PyErr.valueError msg)) :
    convert_data psync pasync item queries vs ra =
      ConvResult.ok []
        (asyncLogs ra ++ [LogMsg.warning ("File " ++ p ++ " has unsupported format: " ++ msg)])
        item := by
  simp [convert_data, hfp, hb, hx]

theorem convert_data_fatal (psync pasync : Extractor) (item : Item) (queries : QueryMap)
    (vs : String) (ra : Bool) (p : String) (b : Backend) (e : PyErr)
    (he : ∀ m, e ≠ PyErr.valueError m)
    (hfp : getKey item "file_path" = some (Val.str p))
    (hb : vectorstore_mapping vs = some b)
    (hx : (if ra then pasync else psync) p queries b = Except.error e) :
    convert_data psync pasync item queries vs ra =
      ConvResult.raised e (asyncLogs ra) item := by
  cases e with
  | valueError m => exact absurd rfl (he m)
  | keyError key => simp [convert_data, hfp, hb, hx]
  | other n => simp [convert_data, hfp, hb, hx]

/-! Claim theorems. -/

/-- C1: for every input item carrying a `file_path` (the guard
`.get("file_path") is None` lets it through), when the chosen extraction
path returns the field mapping `F`, `convert_data` yields exactly one
record whose `file_path` field holds the item's `file_path` value, whose
`metadata` field is the item with the `file_path` key removed (it has no
`file_path` key and every other field of the item is unchanged), and whose
remaining fields are exactly the fields of `F` with unchanged values. -/
theorem C1_record_shape (psync pasync : Extractor) (item : Item) (queries : QueryMap)
    (vs : String) (ra : Bool) (p : String) (b : Backend) (F : Item)
    (hfp : getKey item "file_path" = some (Val.str p))
    (hb : vectorstore_mapping vs = some b)
    (hx : (if ra then pasync else psync) p queries b = Except.ok F) :
    ∃ resp logs,
      convert_data psync pasync item queries vs ra =
        ConvResult.ok [resp] logs (removeKey item "file_path") ∧
      rget resp "file_path" = some (RVal.v (Val.str p)) ∧
      (∃ md, rget resp "metadata" = some (RVal.obj md) ∧
        getKey md "file_path" = none ∧
        ∀ k, k ≠ "file_path" → getKey md k = getKey item k) ∧
      ∀ k, k ≠ "file_path" → k ≠ "metadata" → rget resp k = (getKey F k).map RVal.v := by
  refine ⟨_, _, convert_data_success psync pasync item queries vs ra p b F hfp hb hx,
    ?_, ?_, ?_⟩
  · rw [rget_dictSet_ne _ _ _ _ (by decide), rget_dictSet_self]
  · exact ⟨removeKey item "file_path", rget_dictSet_self _ _ _, getKey_removeKey_self _ _,
      fun k hk => getKey_removeKey_ne _ _ _ hk⟩
  · intro k hk1 hk2
    rw [rget_dictSet_ne _ _ _ _ hk2, rget_dictSet_ne _ _ _ _ hk1, rget_map_v]

/-- Witness for C1 at a concrete item, query map and extraction engine. -/
theorem C1_record_shape_witness :
    getKey itemA "file_path" = some (Val.str "/a.pdf") ∧
    vectorstore_mapping "chroma" = some Backend.chroma ∧
    (if false then exOk else exOk) "/a.pdf" queriesA Backend.chroma = Except.ok fieldsA ∧
    (∃ resp logs,
      convert_data exOk exOk itemA queriesA "chroma" false =
        ConvResult.ok [resp] logs (removeKey itemA "file_path") ∧
      rget resp "file_path" = some (RVal.v (Val.str "/a.pdf")) ∧
      (∃ md, rget resp "metadata" = some (RVal.obj md) ∧
        getKey md "file_path" = none ∧
        ∀ k, k ≠ "file_path" → getKey md k = getKey itemA k) ∧
      ∀ k, k ≠ "file_path" → k ≠ "metadata" → rget resp k = (getKey fieldsA k).map RVal.v) :=
  ⟨by decide, by decide, rfl,
    C1_record_shape exOk exOk itemA queriesA "chroma" false "/a.pdf" Backend.chroma fieldsA
      (by decide) (by decide) rfl⟩

/-- C2: on a `ValueError` raised by the extraction engine, `convert_data`
logs a warning naming the offending file and the underlying reason and
yields no record, and this is the only failure kind converted into a skip:
every other exception raised during conversion propagates unmodified. -/
theorem C2_failure_policy (psync pasync : Extractor) (item : Item) (queries : QueryMap)
    (vs : String) (ra : Bool) (p : String) (b : Backend)
    (hfp : getKey item "file_path" = some (Val.str p))
    (hb : vectorstore_mapping vs = some b) :
    (∀ msg, (if ra then pasync else psync) p queries b = Except.error (PyErr.valueError msg) →
      convert_data psync pasync item queries vs ra =
        ConvResult.ok []
          (asyncLogs ra ++
            [LogMsg.warning ("File " ++ p ++ " has unsupported format: " ++ msg)])
          item) ∧
    (∀ e, (∀ m, e ≠ PyErr.valueError m) →
      (if ra then pasync else psync) p queries b = Except.error e →
      convert_data psync pasync item queries vs ra =
        ConvResult.raised e (asyncLogs ra) item) :=
  ⟨fun msg hx => convert_data_valueError psync pasync item queries vs ra p b msg hfp hb hx,
   fun e he hx => convert_data_fatal psync pasync item queries vs ra p b e he hfp hb hx⟩

/-- Witness for C2 at a concrete item and backend. -/
theorem C2_failure_policy_witness :
    getKey itemA "file_path" = some (Val.str "/a.pdf") ∧
    vectorstore_mapping "chroma" = some Backend.chroma ∧
    ((∀ msg, (if false then exValErr else exValErr) "/a.pdf" queriesA Backend.chroma =
        Except.error (PyErr.valueError msg) →
      convert_data exValErr exValErr itemA queriesA "chroma" false =
        ConvResult.ok []
          (asyncLogs false ++
            [LogMsg.warning ("File " ++ "/a.pdf" ++ " has unsupported format: " ++ msg)])
          itemA) ∧
    (∀ e, (∀ m, e ≠ PyErr.valueError m) →
      (if false then exValErr else exValErr) "/a.pdf" queriesA Backend.chroma =
        Except.error e →
      convert_data exValErr exValErr itemA queriesA "chroma" false =
        ConvResult.raised e (asyncLogs false) itemA)) :=
  ⟨by decide, by decide,
    C2_failure_policy exValErr exValErr itemA queriesA "chroma" false "/a.pdf" Backend.chroma
      (by decide) (by decide)⟩

/-- C3 counterexample: an item whose `file_path` is the empty string is not
skipped: the guard `.get("file_path") is None` passes it through to
extraction, and with an extraction engine that succeeds on it a record is
emitted, refuting that the Executor yields nothing for an empty
`file_path`. -/
theorem C3_counterexample :
    (convert_data exOk exOk [("file_path", Val.str ""), ("data_hash", Val.str "h1")]
        queriesA "chroma" false).records ≠ [] := by
  decide

/-- C3 amended: for every input item whose `file_path` field is absent or
holds `None`, `convert_data` yields nothing, logs nothing, raises nothing
and leaves the item unchanged; an item whose `file_path` is the empty
string is not skipped (extraction is attempted for it). -/
theorem C3_skip_silent (psync pasync : Extractor) (item : Item) (queries : QueryMap)
    (vs : String) (ra : Bool)
    (h : getKey item "file_path" = none ∨ getKey item "file_path" = some Val.null) :
    convert_data psync pasync item queries vs ra = ConvResult.ok [] [] item :=
  convert_data_skip psync pasync item queries vs ra h

/-- Witness for C3 at a concrete item without a `file_path` binding. -/
theorem C3_skip_silent_witness :
    (getKey itemNoPath "file_path" = none ∨
      getKey itemNoPath "file_path" = some Val.null) ∧
    convert_data exOk exOk itemNoPath queriesA "chroma" false =
      ConvResult.ok [] [] itemNoPath :=
  ⟨Or.inl (by decide),
    C3_skip_silent exOk exOk itemNoPath queriesA "chroma" false (Or.inl (by decide))⟩

/-- C4: for a vectorstore name outside the fixed backend mapping,
converting an item that carries a `file_path` ends in a `KeyError` that is
propagated, not caught and not turned into a skip; the outcome is the same
for every extraction engine (the theorem quantifies over both engines), so
the failure occurs before any extraction call is consulted. -/
theorem C4_unknown_backend (psync pasync : Extractor) (item : Item)
    (queries : QueryMap) (vs : String) (ra : Bool) (p : String)
    (hfp : getKey item "file_path" = some (Val.str p))
    (hvs : vectorstore_mapping vs = none) :
    convert_data psync pasync item queries vs ra =
      ConvResult.raised (PyErr.keyError vs) (asyncLogs ra) item :=
  convert_data_unknown_backend psync pasync item queries vs ra p hfp hvs

/-- Witness for C4 at the unknown vectorstore name `faiss`. -/
theorem C4_unknown_backend_witness :
    getKey itemA "file_path" = some (Val.str "/a.pdf") ∧
    vectorstore_mapping "faiss" = none ∧
    convert_data exOk exOk itemA queriesA "faiss" false =
      ConvResult.raised (PyErr.keyError "faiss") (asyncLogs false) itemA :=
  ⟨by decide, by decide,
    C4_unknown_backend exOk exOk itemA queriesA "faiss" false "/a.pdf" (by decide) (by decide)⟩

/-- C5 counterexample: when an explicitly empty query mapping is supplied,
the configurator keeps the empty mapping as the Executor's query set; the
built-in default is not bound (the code substitutes the default only when
`queries is None`). -/
theorem C5_counterexample :
    (unstructured_to_structured_resource envEmpty (some []) "sk" "chroma" "t" false).queries ≠
      INVOICE_QUERIES := by
  decide

/-- C5 amended: the built-in default invoice QueryMap is bound exactly when
the queries argument is omitted (`None`); any supplied mapping, including
an empty one, is bound as given. -/
theorem C5_default_only_when_omitted (env : Env) (k vs tn : String) (ra : Bool) :
    (unstructured_to_structured_resource env none k vs tn ra).queries = INVOICE_QUERIES ∧
    ∀ q, (unstructured_to_structured_resource env (some q) k vs tn ra).queries = q :=
  ⟨rfl, fun _ => rfl⟩

/-- C6 counterexample: `convert_data` does mutate the input item in place
on the success path: after a run over a concrete item that emits a record,
the item no longer equals its original value (its `file_path` binding is
gone). -/
theorem C6_counterexample :
    (convert_data exOk exOk itemA queriesA "chroma" false).finalItem ≠ itemA := by
  decide

/-- C6 amended: when a record is emitted, the Executor mutates the item in
place: the `file_path` key is popped out of the item, whose remaining
fields keep their values, and the record's `metadata` field holds the item
in this mutated state rather than a copy; the item is unchanged only on the
skip and failure paths. -/
theorem C6_mutation (psync pasync : Extractor) (item : Item) (queries : QueryMap)
    (vs : String) (ra : Bool) (p : String) (b : Backend) (F : Item)
    (hfp : getKey item "file_path" = some (Val.str p))
    (hb : vectorstore_mapping vs = some b)
    (hx : (if ra then pasync else psync) p queries b = Except.ok F) :
    (convert_data psync pasync item queries vs ra).finalItem = removeKey item "file_path" ∧
    getKey (convert_data psync pasync item queries vs ra).finalItem "file_path" = none ∧
    (∀ k, k ≠ "file_path" →
      getKey (convert_data psync pasync item queries vs ra).finalItem k = getKey item k) ∧
    ∃ resp logs,
      convert_data psync pasync item queries vs ra =
        ConvResult.ok [resp] logs (removeKey item "file_path") ∧
      rget resp "metadata" = some (RVal.obj (removeKey item "file_path")) := by
  rw [convert_data_success psync pasync item queries vs ra p b F hfp hb hx]
  exact ⟨rfl, getKey_removeKey_self _ _, fun k hk => getKey_removeKey_ne _ _ _ hk,
    _, _, rfl, rget_dictSet_self _ _ _⟩

/-- Witness for C6 at a concrete item and extraction engine. -/
theorem C6_mutation_witness :
    getKey itemA "file_path" = some (Val.str "/a.pdf") ∧
    vectorstore_mapping "chroma" = some Backend.chroma ∧
    (if false then exOk else exOk) "/a.pdf" queriesA Backend.chroma = Except.ok fieldsA ∧
    ((convert_data exOk exOk itemA queriesA "chroma" false).finalItem =
        removeKey itemA "file_path" ∧
    getKey (convert_data exOk exOk itemA queriesA "chroma" false).finalItem "file_path" =
        none ∧
    (∀ k, k ≠ "file_path" →
      getKey (convert_data exOk exOk itemA queriesA "chroma" false).finalItem k =
        getKey itemA k) ∧
    ∃ resp logs,
      convert_data exOk exOk itemA queriesA "chroma" false =
        ConvResult.ok [resp] logs (removeKey itemA "file_path") ∧
      rget resp "metadata" = some (RVal.obj (removeKey itemA "file_path"))) :=
  ⟨by decide, by decide, rfl,
    C6_mutation exOk exOk itemA queriesA "chroma" false "/a.pdf" Backend.chroma fieldsA
      (by decide) (by decide) rfl⟩

/-- C7: for every configuration, the configurator declares output table
name equal to the `table_name` argument, write mode `merge`, and merge key
and primary key both equal to the dlt column path for the nested field
`metadata.data_hash` (flattened to `metadata__data_hash`). -/
theorem C7_declarations (env : Env) (queries : Option QueryMap) (k vs tn : String)
    (ra : Bool) :
    (unstructured_to_structured_resource env queries k vs tn ra).config.name = tn ∧
    (unstructured_to_structured_resource env queries k vs tn ra).config.write_disposition =
      "merge" ∧
    (unstructured_to_structured_resource env queries k vs tn ra).config.merge_key =
      dltColumnPath ["metadata", "data_hash"] ∧
    (unstructured_to_structured_resource env queries k vs tn ra).config.primary_key =
      dltColumnPath ["metadata", "data_hash"] :=
  ⟨rfl, rfl, rfl, rfl⟩

/-- C8: for an item with a `file_path`, if the async extraction path
returns the same result as the sync one on the bound query set, then
`convert_data` with `run_async = true` yields exactly the same records
(same key set and values) as with `run_async = false`. -/
theorem C8_sync_async_agree (psync pasync : Extractor) (item : Item) (queries : QueryMap)
    (vs : String) (p : String)
    (hfp : getKey item "file_path" = some (Val.str p))
    (hagree : ∀ fp b, pasync fp queries b = psync fp queries b) :
    (convert_data psync pasync item queries vs true).records =
      (convert_data psync pasync item queries vs false).records := by
  cases hvs : vectorstore_mapping vs with
  | none =>
    rw [convert_data_unknown_backend psync pasync item queries vs true p hfp hvs,
      convert_data_unknown_backend psync pasync item queries vs false p hfp hvs]
    rfl
  | some b =>
    have hpa : pasync p queries b = psync p queries b := hagree p b
    cases hx : psync p queries b with
    | ok F =>
      rw [convert_data_success psync pasync item queries vs true p b F hfp hvs
          (by simp [hpa, hx]),
        convert_data_success psync pasync item queries vs false p b F hfp hvs (by simp [hx])]
      rfl
    | error e =>
      cases e with
      | valueError m =>
        rw [convert_data_valueError psync pasync item queries vs true p b m hfp hvs
            (by simp [hpa, hx]),
          convert_data_valueError psync pasync item queries vs false p b m hfp hvs
            (by simp [hx])]
        rfl
      | keyError key =>
        rw [convert_data_fatal psync pasync item queries vs true p b (PyErr.keyError key)
            (fun m h => PyErr.noConfusion h) hfp hvs (by simp [hpa, hx]),
          convert_data_fatal psync pasync item queries vs false p b (PyErr.keyError key)
            (fun m h => PyErr.noConfusion h) hfp hvs (by simp [hx])]
        rfl
      | other n =>
        rw [convert_data_fatal psync pasync item queries vs true p b (PyErr.other n)
            (fun m h => PyErr.noConfusion h) hfp hvs (by simp [hpa, hx]),
          convert_data_fatal psync pasync item queries vs false p b (PyErr.other n)
            (fun m h => PyErr.noConfusion h) hfp hvs (by simp [hx])]
        rfl

/-- Witness for C8 at a concrete item with agreeing sync and async
extraction engines. -/
theorem C8_sync_async_agree_witness :
    getKey itemA "file_path" = some (Val.str "/a.pdf") ∧
    (∀ fp b, exOk fp queriesA b = exOk fp queriesA b) ∧
    (convert_data exOk exOk itemA queriesA "chroma" true).records =
      (convert_data exOk exOk itemA queriesA "chroma" false).records :=
  ⟨by decide, fun _ _ => rfl,
    C8_sync_async_agree exOk exOk itemA queriesA "chroma" "/a.pdf" (by decide)
      (fun _ _ => rfl)⟩

/-- C9: whenever a non-empty API key is supplied to the configurator, the
environment it leaves in place binds `OPENAI_API_KEY` to that key (the
assignment happens at configuration time, before the transformer and hence
any extraction call runs), and no other environment variable is touched (in
particular the key is never unset by this core). -/
theorem C9_api_key_env (env : Env) (queries : Option QueryMap) (k vs tn : String)
    (ra : Bool) (hk : k ≠ "") :
    (unstructured_to_structured_resource env queries k vs tn ra).env "OPENAI_API_KEY" =
      some k ∧
    ∀ k', k' ≠ "OPENAI_API_KEY" →
      (unstructured_to_structured_resource env queries k vs tn ra).env k' = env k' := by
  constructor
  · simp [unstructured_to_structured_resource, envSet, hk]
  · intro k' hk'
    simp [unstructured_to_structured_resource, envSet, hk, hk']

/-- Witness for C9 at a concrete non-empty API key. -/
theorem C9_api_key_env_witness :
    ("sk-test" : String) ≠ "" ∧
    ((unstructured_to_structured_resource envEmpty none "sk-test" "chroma" "t" false).env
        "OPENAI_API_KEY" = some "sk-test" ∧
    ∀ k', k' ≠ "OPENAI_API_KEY" →
      (unstructured_to_structured_resource envEmpty none "sk-test" "chroma" "t" false).env
        k' = envEmpty k') :=
  ⟨by decide,
    C9_api_key_env envEmpty none "sk-test" "chroma" "t" false (by decide)⟩

/-- C10: if the chosen extraction path raises any exception for an item
that carries a `file_path`, the item is left unchanged by `convert_data`
(the `pop` of `file_path` happens only after the extraction call has
succeeded), so on the unsupported-format skip path the item still contains
its `file_path` binding, which the warning message reads. -/
theorem C10_item_preserved_on_failure (psync pasync : Extractor) (item : Item)
    (queries : QueryMap) (vs : String) (ra : Bool) (p : String) (b : Backend) (e : PyErr)
    (hfp : getKey item "file_path" = some (Val.str p))
    (hb : vectorstore_mapping vs = some b)
    (hx : (if ra then pasync else psync) p queries b = Except.error e) :
    (convert_data psync pasync item queries vs ra).finalItem = item ∧
    getKey (convert_data psync pasync item queries vs ra).finalItem "file_path" =
      some (Val.str p) := by
  cases e with
  | valueError m =>
    rw [convert_data_valueError psync pasync item queries vs ra p b m hfp hb hx]
    exact ⟨rfl, hfp⟩
  | keyError key =>
    rw [convert_data_fatal psync pasync item queries vs ra p b _ (fun m => by simp)
        hfp hb hx]
    exact ⟨rfl, hfp⟩
  | other n =>
    rw [convert_data_fatal psync pasync item queries vs ra p b _ (fun m => by simp)
        hfp hb hx]
    exact ⟨rfl, hfp⟩

/-- Witness for C10 at a concrete item and a `ValueError`-raising
extraction engine. -/
theorem C10_item_preserved_on_failure_witness :
    getKey itemA "file_path" = some (Val.str "/a.pdf") ∧
    vectorstore_mapping "chroma" = some Backend.chroma ∧
    (if false then exValErr else exValErr) "/a.pdf" queriesA Backend.chroma =
      Except.error (PyErr.valueError "bad format") ∧
    ((convert_data exValErr exValErr itemA queriesA "chroma" false).finalItem = itemA ∧
    getKey (convert_data exValErr exValErr itemA queriesA "chroma" false).finalItem
      "file_path" = some (Val.str "/a.pdf")) :=
  ⟨by decide, by decide, rfl,
    C10_item_preserved_on_failure exValErr exValErr itemA queriesA "chroma" false "/a.pdf"
      Backend.chroma (PyErr.valueError "bad format") (by decide) (by decide) rfl⟩

end UnstructuredData
